import Mathlib

/-!
Verification model of the mcp-RAGON SSE/JSON-RPC gateway
(src/mcp_server.py).  The retrieval collaborator
(src/ragon_core.py, function search_organizational_memory) is
abstracted as a fallible function returning the dictionary shape that
ragon_core always produces; everything else is translated directly
from src/mcp_server.py.
-/

namespace McpRagon

/-- JSON values as produced by Python's json parsing.  `null` doubles as
Python `None`, exactly as in CPython where parsed JSON `null` *is* `None`. -/
inductive Json where
  | null : Json
  | bool : Bool → Json
  | num : Int → Json
  | str : String → Json
  | arr : List Json → Json
  | obj : List (String × Json) → Json

/-- Python `x is None` for a parsed-JSON value. -/
def isNull : Json → Bool
  | .null => true
  | _ => false

/-- Python `d.get(k)` on a parsed-JSON value: `None` when the receiver is not
a dict, the key is absent, or the stored value is JSON null (Python `None`). -/
def pyDictGet (j : Json) (k : String) : Json :=
  match j with
  | .obj kvs => ((kvs.find? (fun p => p.1 == k)).map Prod.snd).getD .null
  | _ => .null

/-- Python `d.get(k, dflt)`: the stored value when the key is present (even if
it is `None`), otherwise `dflt`.  Only meaningful when `d` is a dict. -/
def pyDictGetD (j : Json) (k : String) (dflt : Json) : Json :=
  match j with
  | .obj kvs => ((kvs.find? (fun p => p.1 == k)).map Prod.snd).getD dflt
  | _ => dflt

/-- Whether a value is a Python dict; `.get` on anything else raises
AttributeError. -/
def isDict : Json → Bool
  | .obj _ => true
  | _ => false

/-- Whether a dict value carries the key (used to state response shape). -/
def hasKey (j : Json) (k : String) : Bool :=
  match j with
  | .obj kvs => kvs.any (fun p => p.1 == k)
  | _ => false

/-- Python `x == "s"` for a parsed-JSON value `x` and a string literal. -/
def jsonIsStr (j : Json) (s : String) : Bool :=
  match j with
  | .str t => t == s
  | _ => false

def escChar (c : Char) : String :=
  if c = '\\' then "\\\\"
  else if c = '"' then "\\\""
  else if c = '\n' then "\\n"
  else if c = '\t' then "\\t"
  else if c = '\r' then "\\r"
  else String.singleton c

def jsonEscape (s : String) : String :=
  String.join (s.data.map escChar)

mutual
/-- Model of Python `json.dumps` with default separators (indentation and
non-ASCII escaping minutiae are not depended on by any claim). -/
def jsonDumps : Json → String
  | .null => "null"
  | .bool true => "true"
  | .bool false => "false"
  | .num n => toString n
  | .str s => "\"" ++ jsonEscape s ++ "\""
  | .arr xs => "[" ++ jsonDumpsArr xs ++ "]"
  | .obj kvs => "\x7b" ++ jsonDumpsObj kvs ++ "\x7d"

def jsonDumpsArr : List Json → String
  | [] => ""
  | [x] => jsonDumps x
  | x :: y :: xs => jsonDumps x ++ ", " ++ jsonDumpsArr (y :: xs)

def jsonDumpsObj : List (String × Json) → String
  | [] => ""
  | [(k, v)] => "\"" ++ jsonEscape k ++ "\": " ++ jsonDumps v
  | (k, v) :: p :: kvs =>
      "\"" ++ jsonEscape k ++ "\": " ++ jsonDumps v ++ ", " ++ jsonDumpsObj (p :: kvs)
end

/-- Python `str(x)` for the values that reach an f-string in the dispatcher
(scalars exact; containers rendered via JSON text, a detail no claim reads). -/
def pyStr : Json → String
  | .null => "None"
  | .bool true => "True"
  | .bool false => "False"
  | .num n => toString n
  | .str s => s
  | j => jsonDumps j

/-- Python type names, used only to render AttributeError messages. -/
def pyTypeName : Json → String
  | .null => "NoneType"
  | .bool _ => "bool"
  | .num _ => "int"
  | .str _ => "str"
  | .arr _ => "list"
  | .obj _ => "dict"

/-- The dictionary shape that ragon_core.search_organizational_memory always
returns (its two return statements produce exactly these three keys, the first
two holding lists of JSON dicts). -/
structure RetrievalResult where
  results : List Json
  deep_results : List Json
  log : List String

/-- The retrieval collaborator as the dispatcher sees it: called with the
Python value of `args.get("query")` (possibly None), it either returns a
`RetrievalResult` or raises (modelled as `.error` with the exception text).
`deep_mode` is fixed to `True` at the call site and therefore elided. -/
abbrev Search := Json → Except String RetrievalResult

/-- mcp_server.py lines 147-151: the dict the tool handler builds from the
retrieval result before dumping it to text. -/
def output_data (rr : RetrievalResult) : Json :=
  .obj [("summary", .str ("Found " ++ toString rr.results.length ++ " direct matches.")),
        ("matches", .arr (rr.results.take 5)),
        ("deep_insights", .arr (rr.deep_results.take 3))]

/-- mcp_server.py line 87: `rpc_id = request.get("id")`. -/
def rpcIdOf (request : Json) : Json := pyDictGet request "id"

/-- mcp_server.py line 88: `method = request.get("method")`. -/
def methodOf (request : Json) : Json := pyDictGet request "method"

/-- mcp_server.py line 89: `params = request.get("params", {})`. -/
def paramsOf (request : Json) : Json := pyDictGetD request "params" (.obj [])

/-- mcp_server.py line 138: `tool_name = params.get("name")`. -/
def toolNameOf (request : Json) : Json := pyDictGet (paramsOf request) "name"

/-- mcp_server.py line 139: `args = params.get("arguments", {})`. -/
def argsOf (request : Json) : Json := pyDictGetD (paramsOf request) "arguments" (.obj [])

/-- mcp_server.py line 143: `query = args.get("query")`. -/
def queryOf (request : Json) : Json := pyDictGet (argsOf request) "query"

/-- mcp_server.py lines 142-167: the try body of the search_knowledge_base
branch.  `args.get` and the collaborator call both sit inside the try, so
their exceptions surface as `.error` here and are caught at line 168. -/
def skbTry (search : Search) (request : Json) : Except String Json :=
  if isDict (argsOf request) then
    match search (queryOf request) with
    | .error e => .error e
    | .ok rr => .ok (.obj [
        ("content", .arr [.obj [("type", .str "text"),
          ("text", .str (jsonDumps (output_data rr)))]]),
        ("isError", .bool false)])
  else
    .error ("AttributeError: " ++ pyTypeName (argsOf request) ++ " object has no attribute get")

/-- mcp_server.py lines 142-181: the whole search_knowledge_base branch,
success envelope or except-branch envelope. -/
def skbResponse (search : Search) (request : Json) : Json :=
  match skbTry search request with
  | .ok resultObj =>
      .obj [("jsonrpc", .str "2.0"), ("id", rpcIdOf request),
        ("result", resultObj)]
  | .error e =>
      .obj [("jsonrpc", .str "2.0"), ("id", rpcIdOf request),
        ("result", .obj [
          ("content", .arr [.obj [("type", .str "text"),
            ("text", .str ("Error: " ++ e))]]),
          ("isError", .bool true)])]

/-- mcp_server.py lines 87-206: the pure response computation of
`process_rpc_request`.  `.ok none` means no response (notification),
`.ok (some r)` the response dict, `.error e` an exception that escapes the
handler (there is no catch-all around the task body, so the task dies and
nothing is enqueued). -/
def mkResponse (search : Search) (request : Json) : Except String (Option Json) :=
  if isDict request then
    if jsonIsStr (methodOf request) "initialize" then
      .ok (some (.obj [("jsonrpc", .str "2.0"), ("id", rpcIdOf request),
        ("result", .obj [
          ("protocolVersion", .str "2024-11-05"),
          ("capabilities", .obj [("tools", .obj [])]),
          ("serverInfo", .obj [("name", .str "ragon-manual"),
                               ("version", .str "1.0.0")])])]))
    else if jsonIsStr (methodOf request) "notifications/initialized" then
      .ok none
    else if jsonIsStr (methodOf request) "tools/list" then
      .ok (some (.obj [("jsonrpc", .str "2.0"), ("id", rpcIdOf request),
        ("result", .obj [("tools", .arr [
          .obj [("name", .str "search_knowledge_base"),
                ("description", .str "Search organizational policies, job descriptions and authority limits."),
                ("inputSchema", .obj [
                  ("type", .str "object"),
                  ("properties", .obj [("query", .obj [
                    ("type", .str "string"),
                    ("description", .str "Search query")])]),
                  ("required", .arr [.str "query"])])]])])]))
    else if jsonIsStr (methodOf request) "tools/call" then
      if isDict (paramsOf request) then
        if jsonIsStr (toolNameOf request) "search_knowledge_base" then
          .ok (some (skbResponse search request))
        else
          -- lines 182-191: unknown tool
          .ok (some (.obj [("jsonrpc", .str "2.0"), ("id", rpcIdOf request),
            ("error", .obj [("code", .num (-32601)),
              ("message", .str ("Method " ++ pyStr (toolNameOf request) ++ " not found"))])]))
      else
        -- line 138: params.get on a non-dict raises, outside any try
        .error ("AttributeError: " ++ pyTypeName (paramsOf request) ++ " object has no attribute get")
    else if jsonIsStr (methodOf request) "ping" then
      .ok (some (.obj [("jsonrpc", .str "2.0"), ("id", rpcIdOf request),
        ("result", .obj [])]))
    else
      -- lines 196-206: unknown method, answered only for non-None id
      if isNull (rpcIdOf request) then
        .ok none
      else
        .ok (some (.obj [("jsonrpc", .str "2.0"), ("id", rpcIdOf request),
          ("error", .obj [("code", .num (-32601)),
            ("message", .str ("Method " ++ pyStr (methodOf request) ++ " not found"))])]))
  else
    -- line 87: request.get on a non-dict raises AttributeError
    .error ("AttributeError: " ++ pyTypeName request ++ " object has no attribute get")

/-- Process state: `registry` models the CLIENT_QUEUES dict (session id to
queue object), `queues` the heap of queue objects (index = object identity;
`destroySession` removes only the dict entry, never the object, exactly like
`CLIENT_QUEUES.pop`). -/
structure SysState where
  registry : List (String × Nat)
  queues : List (List (Option Json))

def lookupReg (reg : List (String × Nat)) (sid : String) : Option Nat :=
  (reg.find? (fun p => p.1 == sid)).map Prod.snd

/-- mcp_server.py lines 26-28: allocate a fresh queue and register it under
the freshly generated session id. -/
def sseConnect (s : SysState) (sid : String) : SysState :=
  { registry := (sid, s.queues.length) :: s.registry, queues := s.queues ++ [[]] }

/-- mcp_server.py line 55: `CLIENT_QUEUES.pop(session_id, None)`. -/
def destroySession (s : SysState) (sid : String) : SysState :=
  { s with registry := s.registry.filter (fun p => !(p.1 == sid)) }

/-- `await queue.put(response)` on the queue object `qid` (FIFO: append). -/
def putQueue (s : SysState) (qid : Nat) (r : Json) : SysState :=
  { s with queues := s.queues.set qid ((s.queues.getD qid []) ++ [some r]) }

/-- mcp_server.py lines 80-210 as a state transformer: look the session up
(lines 84-85), compute the response, and enqueue it when there is one
(lines 209-210).  An exception escaping the handler kills the task, so
nothing is enqueued in that case. -/
def process_rpc_request (search : Search) (session_id : String) (request : Json)
    (s : SysState) : SysState :=
  match lookupReg s.registry session_id with
  | none => s
  | some qid =>
    match mkResponse search request with
    | .error _ => s
    | .ok none => s
    | .ok (some r) => putQueue s qid r

/-- mcp_server.py lines 59-78: returns the HTTP status and, on acceptance,
the dispatcher task it schedules (`None` body models a JSON parse failure
of the raw request body). -/
def handle_messages (s : SysState) (session_id : Option String)
    (body : Option Json) : Nat × Option (String × Json) :=
  match session_id with
  | none => (400, none)
  | some sid =>
    -- `if not session_id or session_id not in CLIENT_QUEUES`
    if sid == "" || (lookupReg s.registry sid).isNone then (400, none)
    else match body with
      | none => (400, none)
      | some payload => (202, some (sid, payload))

/-- How the event_generator loop of handle_sse ended. -/
inductive GenExit where
  | stillOpen : GenExit
  | shutdown : GenExit
  | crashed : String → GenExit

def msgFrame (s : String) : String :=
  "event: message\ndata: " ++ s ++ "\n\n"

def endpointFrame (sid : String) : String :=
  "event: endpoint\ndata: /messages?session_id=" ++ sid ++ "\n\n"

/-- mcp_server.py lines 44-50: the generator loop over the sequence of values
the queue yielded.  The serializer is a parameter so that its failure (an
exception from json.dumps, caught nowhere in the loop) is expressible:
on `.error` the exception escapes and the loop ends with nothing more
emitted.  `stillOpen` means the loop was still awaiting the queue when the
connection was cancelled (client disconnect). -/
def genRun (ser : Json → Except String String) :
    List (Option Json) → List String × GenExit
  | [] => ([], .stillOpen)
  | none :: _ => ([], .shutdown)
  | some d :: rest =>
    match ser d with
    | .error e => ([], .crashed e)
    | .ok t =>
      let p := genRun ser rest
      (msgFrame t :: p.1, p.2)

/-- `json.dumps` as the loop actually uses it. -/
def serJson : Json → Except String String := fun d => .ok (jsonDumps d)

/-- mcp_server.py lines 30-57: one whole stream life, for a session already
registered in `s`.  The endpoint frame is emitted first (line 41), then the
loop output; whatever way the loop ends (sentinel, crash, cancellation), the
`finally` at line 55 pops the session. -/
def runStream (ser : Json → Except String String) (s : SysState) (sid : String)
    (items : List (Option Json)) : List String × SysState :=
  (endpointFrame sid :: (genRun ser items).1, destroySession s sid)

/-- Spec-side description of per-session FIFO: the messages still pending on
a queue trace, up to the first shutdown sentinel. -/
def pendingMessages : List (Option Json) → List Json
  | [] => []
  | none :: _ => []
  | some d :: rest => d :: pendingMessages rest

/-- Modelled from the spec (section 4.5), for comparison only: every
direct-match excerpt capped near 800 characters. -/
def excerptLenOk (cap : Nat) (entry : Json) : Bool :=
  match pyDictGet entry "content" with
  | .str s => s.length ≤ cap
  | _ => true

/-- Modelled from the spec (section 4.5), for comparison only: the claimed
800/600-character caps on the reshaped tool output. -/
def excerptsCapped (out : Json) : Bool :=
  (match pyDictGet out "matches" with
   | .arr xs => xs.all (excerptLenOk 800)
   | _ => true) &&
  (match pyDictGet out "deep_insights" with
   | .arr xs => xs.all (excerptLenOk 600)
   | _ => true)

/-- Serializer that fails on the string "bad" and otherwise behaves like
json.dumps; used to exhibit the stream's behaviour on a serialization
failure. -/
def serC8 : Json → Except String String := fun d =>
  if jsonIsStr d "bad" then .error "boom" else .ok (jsonDumps d)

/-- A 2000-character excerpt, used to exhibit the absence of character
capping in the tool handler. -/
def longText : String := String.mk (List.replicate 2000 (Char.ofNat 97))

/-- A retrieval result whose single direct match carries a 2000-character
content excerpt. -/
def rrLong : RetrievalResult := ⟨[.obj [("content", .str longText)]], [], []⟩

/-- A concrete tools/call request for search_knowledge_base with id 3 and
arguments `\x7b"query": "X"\x7d`. -/
def reqSkbX : Json :=
  .obj [("jsonrpc", .str "2.0"), ("id", .num 3), ("method", .str "tools/call"),
        ("params", .obj [("name", .str "search_knowledge_base"),
                         ("arguments", .obj [("query", .str "X")])])]

/-- A concrete tools/call request for search_knowledge_base with id 4 and the
arguments key entirely absent (so `args` defaults to the empty dict and
`args.get("query")` is None). -/
def reqSkbNoArgs : Json :=
  .obj [("jsonrpc", .str "2.0"), ("id", .num 4), ("method", .str "tools/call"),
        ("params", .obj [("name", .str "search_knowledge_base")])]

/-- A collaborator model that behaves like search_organizational_memory on a
missing query: called with None it raises (query_text.split on None —
AttributeError), otherwise it succeeds with an empty result. -/
def searchNoneRaises : Search := fun q =>
  if isNull q then .error "AttributeError: NoneType object has no attribute split"
  else .ok ⟨[], [], []⟩

theorem jsonIsStr_true_iff (j : Json) (s : String) : jsonIsStr j s = true ↔ j = .str s := by
  cases j <;> simp [jsonIsStr]

theorem lookupReg_destroy (s : SysState) (sid : String) :
    lookupReg (destroySession s sid).registry sid = none := by
  have h : (s.registry.filter (fun p => !(p.1 == sid))).find? (fun p => p.1 == sid) = none := by
    rw [List.find?_eq_none]
    intro x hx
    have hx2 := (List.mem_filter.mp hx).2
    simp only [Bool.not_eq_true'] at hx2
    simp [hx2]
  simp [lookupReg, destroySession, h]

theorem getD_of_get? {α : Type} (l : List α) (i : Nat) (x : α) (d : α)
    (h : l.get? i = some x) : l.getD i d = x := by
  rw [List.get?_eq_getElem?] at h
  simp [List.getD, h]

theorem process_enqueues (search : Search) (sid : String) (request : Json)
    (s : SysState) (qid : Nat) (q : List (Option Json)) (r : Json)
    (hreg : lookupReg s.registry sid = some qid)
    (hq : s.queues.get? qid = some q)
    (hmk : mkResponse search request = .ok (some r)) :
    (process_rpc_request search sid request s).queues = s.queues.set qid (q ++ [some r]) := by
  unfold process_rpc_request
  rw [hreg, hmk]
  show (putQueue s qid r).queues = _
  unfold putQueue
  rw [getD_of_get? _ _ _ _ hq]

theorem process_no_response (search : Search) (sid : String) (request : Json)
    (s : SysState) (hmk : mkResponse search request = .ok none) :
    process_rpc_request search sid request s = s := by
  unfold process_rpc_request
  cases h : lookupReg s.registry sid <;> simp [h, hmk]

theorem jsonIsStr_str (t s : String) : jsonIsStr (.str t) s = (t == s) := rfl

theorem mkResponse_init (search : Search) (request : Json)
    (hdict : isDict request = true) (hm : methodOf request = .str "initialize") :
    mkResponse search request = .ok (some (.obj [("jsonrpc", .str "2.0"),
      ("id", rpcIdOf request), ("result", .obj [
        ("protocolVersion", .str "2024-11-05"),
        ("capabilities", .obj [("tools", .obj [])]),
        ("serverInfo", .obj [("name", .str "ragon-manual"),
                             ("version", .str "1.0.0")])])])) := by
  simp [mkResponse, hdict, hm, jsonIsStr_str]

theorem mkResponse_notif_initialized (search : Search) (request : Json)
    (hdict : isDict request = true)
    (hm : methodOf request = .str "notifications/initialized") :
    mkResponse search request = .ok none := by
  simp [mkResponse, hdict, hm, jsonIsStr_str]

theorem mkResponse_tools_list (search : Search) (request : Json)
    (hdict : isDict request = true) (hm : methodOf request = .str "tools/list") :
    mkResponse search request = .ok (some (.obj [("jsonrpc", .str "2.0"),
      ("id", rpcIdOf request),
      ("result", .obj [("tools", .arr [
        .obj [("name", .str "search_knowledge_base"),
              ("description", .str "Search organizational policies, job descriptions and authority limits."),
              ("inputSchema", .obj [
                ("type", .str "object"),
                ("properties", .obj [("query", .obj [
                  ("type", .str "string"),
                  ("description", .str "Search query")])]),
                ("required", .arr [.str "query"])])]])])])) := by
  simp [mkResponse, hdict, hm, jsonIsStr_str]

theorem mkResponse_ping (search : Search) (request : Json)
    (hdict : isDict request = true) (hm : methodOf request = .str "ping") :
    mkResponse search request = .ok (some (.obj [("jsonrpc", .str "2.0"),
      ("id", rpcIdOf request), ("result", .obj [])])) := by
  simp [mkResponse, hdict, hm, jsonIsStr_str]

theorem mkResponse_toolsCall_skb (search : Search) (request : Json)
    (hdict : isDict request = true) (hm : methodOf request = .str "tools/call")
    (hp : isDict (paramsOf request) = true)
    (hname : toolNameOf request = .str "search_knowledge_base") :
    mkResponse search request = .ok (some (skbResponse search request)) := by
  simp [mkResponse, hdict, hm, hp, hname, jsonIsStr_str]

theorem mkResponse_toolsCall_unknownTool (search : Search) (request : Json)
    (hdict : isDict request = true) (hm : methodOf request = .str "tools/call")
    (hp : isDict (paramsOf request) = true)
    (hname : jsonIsStr (toolNameOf request) "search_knowledge_base" = false) :
    mkResponse search request = .ok (some (.obj [("jsonrpc", .str "2.0"),
      ("id", rpcIdOf request),
      ("error", .obj [("code", .num (-32601)),
        ("message", .str ("Method " ++ pyStr (toolNameOf request) ++ " not found"))])])) := by
  simp [mkResponse, hdict, hm, hp, hname, jsonIsStr_str]

theorem mkResponse_unknown (search : Search) (request : Json)
    (hdict : isDict request = true)
    (h1 : jsonIsStr (methodOf request) "initialize" = false)
    (h2 : jsonIsStr (methodOf request) "notifications/initialized" = false)
    (h3 : jsonIsStr (methodOf request) "tools/list" = false)
    (h4 : jsonIsStr (methodOf request) "tools/call" = false)
    (h5 : jsonIsStr (methodOf request) "ping" = false)
    (hid : isNull (rpcIdOf request) = false) :
    mkResponse search request = .ok (some (.obj [("jsonrpc", .str "2.0"),
      ("id", rpcIdOf request),
      ("error", .obj [("code", .num (-32601)),
        ("message", .str ("Method " ++ pyStr (methodOf request) ++ " not found"))])])) := by
  simp [mkResponse, hdict, h1, h2, h3, h4, h5, hid]

theorem mkResponse_unknown_notification (search : Search) (request : Json)
    (hdict : isDict request = true)
    (h1 : jsonIsStr (methodOf request) "initialize" = false)
    (h2 : jsonIsStr (methodOf request) "notifications/initialized" = false)
    (h3 : jsonIsStr (methodOf request) "tools/list" = false)
    (h4 : jsonIsStr (methodOf request) "tools/call" = false)
    (h5 : jsonIsStr (methodOf request) "ping" = false)
    (hid : isNull (rpcIdOf request) = true) :
    mkResponse search request = .ok none := by
  simp [mkResponse, hdict, h1, h2, h3, h4, h5, hid]

theorem skbResponse_id (search : Search) (request : Json) :
    pyDictGet (skbResponse search request) "id" = rpcIdOf request := by
  unfold skbResponse
  cases skbTry search request with
  | error e => rfl
  | ok v => rfl

theorem skbResponse_keys (search : Search) (request : Json) :
    hasKey (skbResponse search request) "result" = true ∧
    hasKey (skbResponse search request) "error" = false := by
  unfold skbResponse
  cases skbTry search request with
  | error e => exact ⟨rfl, rfl⟩
  | ok v => exact ⟨rfl, rfl⟩

/-- C2: per-session FIFO — over one whole stream life, the frames the SSE
handler emits are the endpoint frame followed by exactly the messages that
were enqueued on that session's queue (up to the first shutdown sentinel),
each serialized with json.dumps, in enqueue order. -/
theorem C2_fifo_per_session (s : SysState) (sid : String) (items : List (Option Json)) :
    (runStream serJson s sid items).1 =
      endpointFrame sid :: (pendingMessages items).map (fun d => msgFrame (jsonDumps d)) := by
  have h : ∀ l : List (Option Json),
      (genRun serJson l).1 = (pendingMessages l).map (fun d => msgFrame (jsonDumps d)) := by
    intro l
    induction l with
    | nil => rfl
    | cons x t ih =>
      cases x with
      | none => rfl
      | some d => simp [genRun, serJson, pendingMessages, ih]
  simp [runStream, h]

/-- C3: a POST whose session_id is missing, empty or unregistered, or whose
body is not valid JSON, is answered 400 and schedules no dispatcher task —
the method registry is never reached and nothing can be enqueued. -/
theorem C3_bad_post_rejected (s : SysState) (sidOpt : Option String) (body : Option Json)
    (h : (match sidOpt with
          | none => True
          | some sid => sid = "" ∨ lookupReg s.registry sid = none) ∨ body = none) :
    handle_messages s sidOpt body = (400, none) := by
  cases sidOpt with
  | none => rfl
  | some sid =>
    unfold handle_messages
    rcases h with h | h
    · rcases h with h | h
      · simp [h]
      · simp [h]
    · subst h
      by_cases hc : (sid == "" || (lookupReg s.registry sid).isNone) = true
      · simp [hc]
      · simp [hc]

/-- C3 witness: a POST with an unknown session id is rejected 400 with no
dispatch. -/
theorem C3_witness :
    handle_messages ⟨[("s1", 0)], [[]]⟩ (some "zz") (some (.obj [])) = (400, none) :=
  C3_bad_post_rejected ⟨[("s1", 0)], [[]]⟩ (some "zz") (some (.obj []))
    (Or.inl (Or.inr rfl))

/-- C4: on every exit of an SSE stream — whatever the queue yielded before
the loop ended (client cancellation, shutdown sentinel, serialization
crash) — the finally clause leaves the state with the session removed, the
registry no longer resolves the id, and every subsequent POST carrying that
session id is answered 400 with no dispatch. -/
theorem C4_stream_exit_destroys_session (ser : Json → Except String String)
    (s : SysState) (sid : String) (items : List (Option Json)) (body : Option Json) :
    (runStream ser s sid items).2 = destroySession s sid ∧
    lookupReg (runStream ser s sid items).2.registry sid = none ∧
    handle_messages (runStream ser s sid items).2 (some sid) body = (400, none) := by
  refine ⟨rfl, ?_, ?_⟩
  · simpa [runStream] using lookupReg_destroy s sid
  · have h := lookupReg_destroy s sid
    unfold handle_messages
    simp [runStream, h]

/-- C7: once a session is destroyed the registry reports it gone, and a
dispatcher task running for that id leaves the entire state untouched —
nothing is enqueued on any queue, so the task's response can never be
delivered on any stream. -/
theorem C7_destroyed_session_drops_response (search : Search) (s : SysState)
    (sid : String) (request : Json) :
    lookupReg (destroySession s sid).registry sid = none ∧
    process_rpc_request search sid request (destroySession s sid) = destroySession s sid := by
  refine ⟨lookupReg_destroy s sid, ?_⟩
  unfold process_rpc_request
  rw [lookupReg_destroy]

/-- C1 counterexample: a request with the non-null id 1 and method
"notifications/initialized", accepted for a live session whose handler
completes, produces zero response envelopes — the state (and in particular
the session's empty queue) is unchanged, not "exactly one". -/
theorem C1_counterexample :
    process_rpc_request (fun _ => .error "unreachable") "s1"
      (.obj [("jsonrpc", .str "2.0"), ("id", .num 1),
             ("method", .str "notifications/initialized")])
      ⟨[("s1", 0)], [[]]⟩ = ⟨[("s1", 0)], [[]]⟩ := by
  rfl

/-- C6 counterexample: a ping sent as a notification (id omitted) does get a
response — the dispatcher enqueues an envelope with id null on the session's
queue, so a notification can receive a response. -/
theorem C6_counterexample :
    process_rpc_request (fun _ => .error "unreachable") "s1"
      (.obj [("jsonrpc", .str "2.0"), ("method", .str "ping")])
      ⟨[("s1", 0)], [[]]⟩ =
    ⟨[("s1", 0)],
     [[some (.obj [("jsonrpc", .str "2.0"), ("id", .null), ("result", .obj [])])]]⟩ := by
  rfl

theorem skbTry_argsNotDict (search : Search) (request : Json)
    (hnd : isDict (argsOf request) = false) :
    skbTry search request = .error ("AttributeError: " ++ pyTypeName (argsOf request) ++
      " object has no attribute get") := by
  simp [skbTry, hnd]

theorem skbTry_searchError (search : Search) (request : Json) (e : String)
    (hargs : isDict (argsOf request) = true)
    (he : search (queryOf request) = .error e) :
    skbTry search request = .error e := by
  simp [skbTry, hargs, he]

theorem skbTry_searchOk (search : Search) (request : Json) (rr : RetrievalResult)
    (hargs : isDict (argsOf request) = true)
    (he : search (queryOf request) = .ok rr) :
    skbTry search request = .ok (.obj [
      ("content", .arr [.obj [("type", .str "text"),
        ("text", .str (jsonDumps (output_data rr)))]]),
      ("isError", .bool false)]) := by
  simp [skbTry, hargs, he]

theorem skbResponse_error (search : Search) (request : Json) (e : String)
    (htry : skbTry search request = .error e) :
    skbResponse search request = .obj [("jsonrpc", .str "2.0"),
      ("id", rpcIdOf request),
      ("result", .obj [
        ("content", .arr [.obj [("type", .str "text"),
          ("text", .str ("Error: " ++ e))]]),
        ("isError", .bool true)])] := by
  unfold skbResponse
  rw [htry]

theorem skbResponse_ok (search : Search) (request : Json) (v : Json)
    (htry : skbTry search request = .ok v) :
    skbResponse search request = .obj [("jsonrpc", .str "2.0"),
      ("id", rpcIdOf request), ("result", v)] := by
  unfold skbResponse
  rw [htry]

/-- C5: a tools/call request for search_knowledge_base whose collaborator
call raises is answered with a JSON-RPC success envelope — a result member,
not an error member — whose result.isError is true, whose result.content is
the single text item "Error: <message>", and whose id echoes the request's
id; exactly one such envelope is appended to the live session's queue. -/
theorem C5_handler_error_as_result (search : Search) (s : SysState)
    (sid : String) (request : Json) (qid : Nat) (q : List (Option Json)) (e : String)
    (hreg : lookupReg s.registry sid = some qid)
    (hq : s.queues.get? qid = some q)
    (hdict : isDict request = true)
    (hm : methodOf request = .str "tools/call")
    (hp : isDict (paramsOf request) = true)
    (hname : toolNameOf request = .str "search_knowledge_base")
    (hargs : isDict (argsOf request) = true)
    (hsearch : search (queryOf request) = .error e) :
    (process_rpc_request search sid request s).queues = s.queues.set qid (q ++
      [some (.obj [("jsonrpc", .str "2.0"), ("id", rpcIdOf request),
        ("result", .obj [
          ("content", .arr [.obj [("type", .str "text"),
            ("text", .str ("Error: " ++ e))]]),
          ("isError", .bool true)])])]) := by
  have hmk := mkResponse_toolsCall_skb search request hdict hm hp hname
  rw [skbResponse_error search request e (skbTry_searchError search request e hargs hsearch)]
    at hmk
  exact process_enqueues search sid request s qid q _ hreg hq hmk

/-- C5 witness: the theorem applied to a concrete failing collaborator and a
concrete request with id 3 on a live session. -/
theorem C5_witness :
    (process_rpc_request (fun _ => .error "backend down") "s1" reqSkbX
      ⟨[("s1", 0)], [[]]⟩).queues = [[]].set 0 ([] ++
      [some (.obj [("jsonrpc", .str "2.0"), ("id", rpcIdOf reqSkbX),
        ("result", .obj [
          ("content", .arr [.obj [("type", .str "text"),
            ("text", .str ("Error: " ++ "backend down"))]]),
          ("isError", .bool true)])])]) :=
  C5_handler_error_as_result (fun _ => .error "backend down") ⟨[("s1", 0)], [[]]⟩
    "s1" reqSkbX 0 [] "backend down" rfl rfl rfl rfl rfl rfl rfl rfl

/-- C1 amended: a request object with non-null id whose method is not
"notifications/initialized" (and, for tools/call, whose params member is an
object so the handler does not die of an uncaught AttributeError),
dispatched while its session is live, gets exactly one response envelope
appended to that session's queue, bearing the request's id and carrying a
result or error member; a notifications/initialized envelope with non-null
id gets none (see the counterexample). -/
theorem C1_amended_exactly_one_response (search : Search) (s : SysState)
    (sid : String) (request : Json) (qid : Nat) (q : List (Option Json))
    (hreg : lookupReg s.registry sid = some qid)
    (hq : s.queues.get? qid = some q)
    (hdict : isDict request = true)
    (hid : isNull (rpcIdOf request) = false)
    (hnotif : jsonIsStr (methodOf request) "notifications/initialized" = false)
    (hparams : jsonIsStr (methodOf request) "tools/call" = true →
      isDict (paramsOf request) = true) :
    ∃ r : Json,
      (process_rpc_request search sid request s).queues =
        s.queues.set qid (q ++ [some r]) ∧
      pyDictGet r "id" = rpcIdOf request ∧
      (hasKey r "result" || hasKey r "error") = true := by
  have main : ∃ r, mkResponse search request = .ok (some r) ∧
      pyDictGet r "id" = rpcIdOf request ∧
      (hasKey r "result" || hasKey r "error") = true := by
    by_cases h1 : jsonIsStr (methodOf request) "initialize" = true
    · rw [jsonIsStr_true_iff] at h1
      exact ⟨_, mkResponse_init search request hdict h1, rfl, rfl⟩
    · simp only [Bool.not_eq_true] at h1
      by_cases h3 : jsonIsStr (methodOf request) "tools/list" = true
      · rw [jsonIsStr_true_iff] at h3
        exact ⟨_, mkResponse_tools_list search request hdict h3, rfl, rfl⟩
      · simp only [Bool.not_eq_true] at h3
        by_cases h4 : jsonIsStr (methodOf request) "tools/call" = true
        · have hp := hparams h4
          rw [jsonIsStr_true_iff] at h4
          by_cases h5 : jsonIsStr (toolNameOf request) "search_knowledge_base" = true
          · rw [jsonIsStr_true_iff] at h5
            refine ⟨skbResponse search request,
              mkResponse_toolsCall_skb search request hdict h4 hp h5,
              skbResponse_id search request, ?_⟩
            rw [(skbResponse_keys search request).1]
            rfl
          · simp only [Bool.not_eq_true] at h5
            exact ⟨_, mkResponse_toolsCall_unknownTool search request hdict h4 hp h5,
              rfl, rfl⟩
        · simp only [Bool.not_eq_true] at h4
          by_cases h6 : jsonIsStr (methodOf request) "ping" = true
          · rw [jsonIsStr_true_iff] at h6
            exact ⟨_, mkResponse_ping search request hdict h6, rfl, rfl⟩
          · simp only [Bool.not_eq_true] at h6
            exact ⟨_, mkResponse_unknown search request hdict h1 hnotif h3 h4 h6 hid,
              rfl, rfl⟩
  obtain ⟨r, hmk, hidr, hkeys⟩ := main
  exact ⟨r, process_enqueues search sid request s qid q r hreg hq hmk, hidr, hkeys⟩

/-- C1 witness: the amended claim applied to a concrete ping request with
id 7 on a live session. -/
theorem C1_amended_witness :
    ∃ r : Json,
      (process_rpc_request (fun _ => .error "unreachable") "s1"
        (.obj [("jsonrpc", .str "2.0"), ("id", .num 7), ("method", .str "ping")])
        ⟨[("s1", 0)], [[]]⟩).queues = [[]].set 0 ([] ++ [some r]) ∧
      pyDictGet r "id" =
        rpcIdOf (.obj [("jsonrpc", .str "2.0"), ("id", .num 7), ("method", .str "ping")]) ∧
      (hasKey r "result" || hasKey r "error") = true :=
  C1_amended_exactly_one_response (fun _ => .error "unreachable") ⟨[("s1", 0)], [[]]⟩
    "s1" (.obj [("jsonrpc", .str "2.0"), ("id", .num 7), ("method", .str "ping")]) 0 []
    rfl rfl rfl rfl rfl (fun h => absurd h (by decide))

/-- C6 amended: only notifications/initialized and unrecognized methods act
as true notifications.  For an id-less request object on a live session:
with method notifications/initialized, or with a method outside the five
known ones, nothing is enqueued; but an id-less initialize, tools/list, ping
or tools/call (with params an object) still enqueues exactly one response,
whose id member is null. -/
theorem C6_amended_notifications (search : Search) (s : SysState)
    (sid : String) (request : Json) (qid : Nat) (q : List (Option Json))
    (hreg : lookupReg s.registry sid = some qid)
    (hq : s.queues.get? qid = some q)
    (hdict : isDict request = true)
    (hid : rpcIdOf request = .null) :
    ((jsonIsStr (methodOf request) "notifications/initialized" = true ∨
      (jsonIsStr (methodOf request) "initialize" = false ∧
       jsonIsStr (methodOf request) "notifications/initialized" = false ∧
       jsonIsStr (methodOf request) "tools/list" = false ∧
       jsonIsStr (methodOf request) "tools/call" = false ∧
       jsonIsStr (methodOf request) "ping" = false)) →
      process_rpc_request search sid request s = s) ∧
    ((jsonIsStr (methodOf request) "initialize" = true ∨
      jsonIsStr (methodOf request) "tools/list" = true ∨
      jsonIsStr (methodOf request) "ping" = true ∨
      (jsonIsStr (methodOf request) "tools/call" = true ∧
       isDict (paramsOf request) = true)) →
      ∃ r : Json,
        (process_rpc_request search sid request s).queues =
          s.queues.set qid (q ++ [some r]) ∧
        pyDictGet r "id" = Json.null) := by
  have hidb : isNull (rpcIdOf request) = true := by rw [hid]; rfl
  constructor
  · intro h
    rcases h with h | ⟨h1, h2, h3, h4, h5⟩
    · rw [jsonIsStr_true_iff] at h
      exact process_no_response search sid request s
        (mkResponse_notif_initialized search request hdict h)
    · exact process_no_response search sid request s
        (mkResponse_unknown_notification search request hdict h1 h2 h3 h4 h5 hidb)
  · intro h
    rcases h with h | h | h | ⟨h, hp⟩
    · rw [jsonIsStr_true_iff] at h
      refine ⟨_, process_enqueues search sid request s qid q _ hreg hq
        (mkResponse_init search request hdict h), ?_⟩
      rw [hid]; rfl
    · rw [jsonIsStr_true_iff] at h
      refine ⟨_, process_enqueues search sid request s qid q _ hreg hq
        (mkResponse_tools_list search request hdict h), ?_⟩
      rw [hid]; rfl
    · rw [jsonIsStr_true_iff] at h
      refine ⟨_, process_enqueues search sid request s qid q _ hreg hq
        (mkResponse_ping search request hdict h), ?_⟩
      rw [hid]; rfl
    · rw [jsonIsStr_true_iff] at h
      by_cases h5 : jsonIsStr (toolNameOf request) "search_knowledge_base" = true
      · rw [jsonIsStr_true_iff] at h5
        refine ⟨skbResponse search request,
          process_enqueues search sid request s qid q _ hreg hq
            (mkResponse_toolsCall_skb search request hdict h hp h5), ?_⟩
        rw [skbResponse_id search request, hid]
      · simp only [Bool.not_eq_true] at h5
        refine ⟨_, process_enqueues search sid request s qid q _ hreg hq
          (mkResponse_toolsCall_unknownTool search request hdict h hp h5), ?_⟩
        rw [hid]; rfl

/-- C6 witness: the amended claim applied to a concrete id-less tools/list
request — a response with id null is enqueued. -/
theorem C6_amended_witness :
    ∃ r : Json,
      (process_rpc_request (fun _ => .error "unreachable") "s1"
        (.obj [("jsonrpc", .str "2.0"), ("method", .str "tools/list")])
        ⟨[("s1", 0)], [[]]⟩).queues = [[]].set 0 ([] ++ [some r]) ∧
      pyDictGet r "id" = Json.null :=
  (C6_amended_notifications (fun _ => .error "unreachable") ⟨[("s1", 0)], [[]]⟩
    "s1" (.obj [("jsonrpc", .str "2.0"), ("method", .str "tools/list")]) 0 []
    rfl rfl rfl rfl).2 (Or.inr (Or.inl rfl))

/-- C8 counterexample: when serializing the first queued event fails, the
loop emits no frame at all and ends with the propagated exception — the
following event "good" is never delivered even though the transport is
fine, so the failing frame is not skipped and the stream does not continue. -/
theorem C8_counterexample :
    genRun serC8 [some (.str "bad"), some (.str "good")] = ([], .crashed "boom") := by
  rfl

/-- C8 amended: a serialization failure is not skipped — the exception
propagates out of the generator loop, so the stream emits exactly the frames
that preceded the failing event and then terminates with the crash, even
though the transport is fine; the finally clause still destroys the
session. -/
theorem C8_amended_crash_ends_stream (ser : Json → Except String String)
    (s : SysState) (sid : String) (pre : List Json) (v : Json)
    (rest : List (Option Json)) (e : String)
    (hpre : ∀ d ∈ pre, ∃ t, ser d = .ok t)
    (hv : ser v = .error e) :
    (genRun ser (pre.map some ++ some v :: rest)).2 = .crashed e ∧
    (genRun ser (pre.map some ++ some v :: rest)).1.length = pre.length ∧
    (runStream ser s sid (pre.map some ++ some v :: rest)).2 = destroySession s sid := by
  have h : ∀ l : List Json, (∀ d ∈ l, ∃ t, ser d = .ok t) →
      (genRun ser (l.map some ++ some v :: rest)).2 = .crashed e ∧
      (genRun ser (l.map some ++ some v :: rest)).1.length = l.length := by
    intro l
    induction l with
    | nil =>
      intro _
      simp [genRun, hv]
    | cons d t ih =>
      intro hl
      obtain ⟨td, htd⟩ := hl d (by simp)
      have iht := ih (fun x hx => hl x (by simp [hx]))
      simp [genRun, htd, iht.1, iht.2]
  exact ⟨(h pre hpre).1, (h pre hpre).2, rfl⟩

/-- C8 witness: the amended claim applied to a concrete queue whose second
event fails to serialize — one frame precedes the crash, none follow. -/
theorem C8_amended_witness :
    (genRun serC8 ([Json.str "g"].map some ++ some (.str "bad") ::
      [some (.str "x")])).2 = .crashed "boom" ∧
    (genRun serC8 ([Json.str "g"].map some ++ some (.str "bad") ::
      [some (.str "x")])).1.length = [Json.str "g"].length ∧
    (runStream serC8 ⟨[("s1", 0)], [[]]⟩ "s1" ([Json.str "g"].map some ++
      some (.str "bad") :: [some (.str "x")])).2 =
      destroySession ⟨[("s1", 0)], [[]]⟩ "s1" :=
  C8_amended_crash_ends_stream serC8 ⟨[("s1", 0)], [[]]⟩ "s1" [.str "g"]
    (.str "bad") [some (.str "x")] "boom"
    (by intro d hd; simp at hd; subst hd; exact ⟨jsonDumps (.str "g"), rfl⟩)
    rfl

/-- C9 counterexample: the tool handler applies no character cap — a
completed search_knowledge_base call whose single direct match carries a
2000-character excerpt is reshaped into an output whose matches entry keeps
the excerpt verbatim, so the spec's near-800/near-600 character bound
(excerptsCapped) fails on it. -/
theorem C9_counterexample :
    mkResponse (fun _ => .ok rrLong) reqSkbX =
      .ok (some (.obj [("jsonrpc", .str "2.0"), ("id", .num 3),
        ("result", .obj [
          ("content", .arr [.obj [("type", .str "text"),
            ("text", .str (jsonDumps (output_data rrLong)))]]),
          ("isError", .bool false)])])) ∧
    excerptsCapped (output_data rrLong) = false := by
  constructor
  · rfl
  · have hlen : longText.length = 2000 := by
      unfold longText
      rw [String.length_mk, List.length_replicate]
    have h1 : excerptLenOk 800 (.obj [("content", .str longText)]) = false := by
      simp [excerptLenOk, pyDictGet, hlen]
    simp [excerptsCapped, output_data, rrLong, pyDictGet, h1]

/-- C9 amended: for a completed call the handler bounds the result by count,
not by characters — the reshaped output holds the first 5 direct matches and
the first 3 deep insights verbatim plus the one-line count summary, and the
enqueued envelope's text is the JSON dump of exactly that object. -/
theorem C9_amended_count_caps (search : Search) (s : SysState)
    (sid : String) (request : Json) (qid : Nat) (q : List (Option Json))
    (rr : RetrievalResult)
    (hreg : lookupReg s.registry sid = some qid)
    (hq : s.queues.get? qid = some q)
    (hdict : isDict request = true)
    (hm : methodOf request = .str "tools/call")
    (hp : isDict (paramsOf request) = true)
    (hname : toolNameOf request = .str "search_knowledge_base")
    (hargs : isDict (argsOf request) = true)
    (hsearch : search (queryOf request) = .ok rr) :
    (process_rpc_request search sid request s).queues = s.queues.set qid (q ++
      [some (.obj [("jsonrpc", .str "2.0"), ("id", rpcIdOf request),
        ("result", .obj [
          ("content", .arr [.obj [("type", .str "text"),
            ("text", .str (jsonDumps (output_data rr)))]]),
          ("isError", .bool false)])])]) ∧
    pyDictGet (output_data rr) "matches" = .arr (rr.results.take 5) ∧
    pyDictGet (output_data rr) "deep_insights" = .arr (rr.deep_results.take 3) ∧
    pyDictGet (output_data rr) "summary" =
      .str ("Found " ++ toString rr.results.length ++ " direct matches.") := by
  refine ⟨?_, rfl, rfl, rfl⟩
  have hmk := mkResponse_toolsCall_skb search request hdict hm hp hname
  rw [skbResponse_ok search request _ (skbTry_searchOk search request rr hargs hsearch)]
    at hmk
  exact process_enqueues search sid request s qid q _ hreg hq hmk

/-- C9 witness: the amended claim applied to a concrete collaborator result
with seven direct matches and four deep insights. -/
theorem C9_amended_witness :
    (process_rpc_request (fun _ => .ok ⟨[.num 1, .num 2, .num 3, .num 4, .num 5,
        .num 6, .num 7], [.num 11, .num 12, .num 13, .num 14], []⟩) "s1" reqSkbX
      ⟨[("s1", 0)], [[]]⟩).queues = [[]].set 0 ([] ++
      [some (.obj [("jsonrpc", .str "2.0"), ("id", rpcIdOf reqSkbX),
        ("result", .obj [
          ("content", .arr [.obj [("type", .str "text"),
            ("text", .str (jsonDumps (output_data ⟨[.num 1, .num 2, .num 3,
              .num 4, .num 5, .num 6, .num 7],
              [.num 11, .num 12, .num 13, .num 14], []⟩)))]]),
          ("isError", .bool false)])])]) ∧
    pyDictGet (output_data ⟨[.num 1, .num 2, .num 3, .num 4, .num 5, .num 6,
        .num 7], [.num 11, .num 12, .num 13, .num 14], []⟩) "matches" =
      .arr ([Json.num 1, .num 2, .num 3, .num 4, .num 5, .num 6, .num 7].take 5) ∧
    pyDictGet (output_data ⟨[.num 1, .num 2, .num 3, .num 4, .num 5, .num 6,
        .num 7], [.num 11, .num 12, .num 13, .num 14], []⟩) "deep_insights" =
      .arr ([Json.num 11, .num 12, .num 13, .num 14].take 3) ∧
    pyDictGet (output_data ⟨[.num 1, .num 2, .num 3, .num 4, .num 5, .num 6,
        .num 7], [.num 11, .num 12, .num 13, .num 14], []⟩) "summary" =
      .str ("Found " ++ toString [Json.num 1, .num 2, .num 3, .num 4, .num 5,
        .num 6, .num 7].length ++ " direct matches.") :=
  C9_amended_count_caps (fun _ => .ok ⟨[.num 1, .num 2, .num 3, .num 4, .num 5,
      .num 6, .num 7], [.num 11, .num 12, .num 13, .num 14], []⟩)
    ⟨[("s1", 0)], [[]]⟩ "s1" reqSkbX 0 []
    ⟨[.num 1, .num 2, .num 3, .num 4, .num 5, .num 6, .num 7],
     [.num 11, .num 12, .num 13, .num 14], []⟩
    rfl rfl rfl rfl rfl rfl rfl rfl

/-- C10: the search_knowledge_base branch is total in the shape of
params.arguments — for any arguments shape and any collaborator outcome the
live session receives exactly one envelope, bearing the request's id, with a
result member and no error member; when arguments is not a dict the result
carries isError true, and when the collaborator raises the result carries
isError true with the text "Error: <exception text>". -/
theorem C10_skb_total_in_arguments (search : Search) (s : SysState)
    (sid : String) (request : Json) (qid : Nat) (q : List (Option Json))
    (hreg : lookupReg s.registry sid = some qid)
    (hq : s.queues.get? qid = some q)
    (hdict : isDict request = true)
    (hm : methodOf request = .str "tools/call")
    (hp : isDict (paramsOf request) = true)
    (hname : toolNameOf request = .str "search_knowledge_base")
    (hid : isNull (rpcIdOf request) = false) :
    ∃ r : Json,
      (process_rpc_request search sid request s).queues =
        s.queues.set qid (q ++ [some r]) ∧
      pyDictGet r "id" = rpcIdOf request ∧
      hasKey r "result" = true ∧ hasKey r "error" = false ∧
      (isDict (argsOf request) = false →
        pyDictGet (pyDictGet r "result") "isError" = .bool true) ∧
      (∀ e, isDict (argsOf request) = true → search (queryOf request) = .error e →
        pyDictGet (pyDictGet r "result") "isError" = .bool true ∧
        pyDictGet (pyDictGet r "result") "content" =
          .arr [.obj [("type", .str "text"), ("text", .str ("Error: " ++ e))]]) := by
  refine ⟨skbResponse search request,
    process_enqueues search sid request s qid q _ hreg hq
      (mkResponse_toolsCall_skb search request hdict hm hp hname),
    skbResponse_id search request,
    (skbResponse_keys search request).1,
    (skbResponse_keys search request).2, ?_, ?_⟩
  · intro hnd
    rw [skbResponse_error search request _ (skbTry_argsNotDict search request hnd)]
    rfl
  · intro e hargs he
    rw [skbResponse_error search request e (skbTry_searchError search request e hargs he)]
    exact ⟨rfl, rfl⟩

/-- C10 witness: the claim applied to a concrete request whose arguments key
is entirely absent, against a collaborator that (like
search_organizational_memory) raises when the query is None — the request
still gets exactly one result envelope, with isError true. -/
theorem C10_witness :
    ∃ r : Json,
      (process_rpc_request searchNoneRaises "s1" reqSkbNoArgs
        ⟨[("s1", 0)], [[]]⟩).queues = [[]].set 0 ([] ++ [some r]) ∧
      pyDictGet r "id" = rpcIdOf reqSkbNoArgs ∧
      hasKey r "result" = true ∧ hasKey r "error" = false ∧
      (isDict (argsOf reqSkbNoArgs) = false →
        pyDictGet (pyDictGet r "result") "isError" = .bool true) ∧
      (∀ e, isDict (argsOf reqSkbNoArgs) = true →
        searchNoneRaises (queryOf reqSkbNoArgs) = .error e →
        pyDictGet (pyDictGet r "result") "isError" = .bool true ∧
        pyDictGet (pyDictGet r "result") "content" =
          .arr [.obj [("type", .str "text"), ("text", .str ("Error: " ++ e))]]) :=
  C10_skb_total_in_arguments searchNoneRaises ⟨[("s1", 0)], [[]]⟩ "s1"
    reqSkbNoArgs 0 [] rfl rfl rfl rfl rfl rfl rfl

end McpRagon
